import Mathlib

/-!
Shallow embedding of `src/pages/02_추가된페이지.py`, a single-page Streamlit
dashboard over yfinance.  Numeric values (prices, market caps, volumes) are
modelled as exact rationals; Python's float `:.2f` / `:,.0f` formatting is
modelled as exact round-half-even on the rational value.  Streamlit calls are
modelled as an ordered trace of UI/provider effects; an uncaught Python
exception ends the trace with a `crash` effect.
-/

namespace MyMapApp

attribute [local semireducible] Rat.add Rat.sub Rat.mul Rat.inv

/-- Round-half-even of a rational to the nearest integer, the tie-breaking rule
used by Python's fixed-point float formatting. -/
def roundHalfEven (q : ℚ) : ℤ :=
  let f : ℤ := ⌊q⌋
  if q - f < 1/2 then f
  else if q - f > 1/2 then f + 1
  else if f % 2 = 0 then f else f + 1

/-- Model of Python `f"{x:.2f}"`: the value rounded (half-even) to two decimal
places, printed with exactly two fractional digits and a leading minus sign for
negative results. -/
def formatFixed2 (q : ℚ) : String :=
  let n : ℤ := roundHalfEven (q * 100)
  let sign : String := if n < 0 then "-" else ""
  let a : ℕ := n.natAbs
  sign ++ toString (a / 100) ++ "." ++ (if a % 100 < 10 then "0" else "") ++ toString (a % 100)

/-- Insert a comma after every three characters of a reversed digit list that
still has digits following, i.e. thousands grouping seen from the right. -/
def groupThousandsRev : List Char → List Char
  | a :: b :: c :: d :: rest => a :: b :: c :: ',' :: groupThousandsRev (d :: rest)
  | l => l

/-- Model of Python `f"{x:,.0f}"`: round half-even to an integer and print it
with thousands separators (and a leading minus sign when negative). -/
def formatComma0 (q : ℚ) : String :=
  let n : ℤ := roundHalfEven q
  let sign : String := if n < 0 then "-" else ""
  let digits : List Char := (toString n.natAbs).data
  sign ++ String.mk (groupThousandsRev digits.reverse).reverse

/-- Embedding of `format_market_cap` (source lines 72–80): pick the largest
applicable unit among 1e12/1e9/1e6, divide, format to two decimals and add the
suffix; otherwise fall back to a thousands-grouped integer.  All branches share
the `$` prefix. -/
def format_market_cap (market_cap : ℚ) : String :=
  if market_cap ≥ 10^12 then "$" ++ formatFixed2 (market_cap / 10^12) ++ "T"
  else if market_cap ≥ 10^9 then "$" ++ formatFixed2 (market_cap / 10^9) ++ "B"
  else if market_cap ≥ 10^6 then "$" ++ formatFixed2 (market_cap / 10^6) ++ "M"
  else "$" ++ formatComma0 market_cap

/-- Raw provider snapshot (the `stock.info` dictionary): any of the four fields
the page reads may be absent. -/
structure RawInfo where
  longName : Option String
  sector : Option String
  marketCap : Option ℚ
  currentPrice : Option ℚ
deriving DecidableEq, Repr

/-- The record `get_company_info` returns: exactly the four keys the source
dictionary literal carries. -/
structure CompanyInfo where
  name : String
  sector : String
  marketCap : ℚ
  currentPrice : ℚ
deriving DecidableEq, Repr

/-- Embedding of `get_company_info` (source lines 58–70): the provider call
either raises (modelled as `Except.error`) or returns a raw field map; on
success each field is read with a per-field default (`info.get(key, default)`),
and on an exception a fully-placeholder record is returned. -/
def get_company_info (resp : Except String RawInfo) : CompanyInfo :=
  match resp with
  | .ok info =>
    { name := info.longName.getD "N/A"
      sector := info.sector.getD "N/A"
      marketCap := info.marketCap.getD 0
      currentPrice := info.currentPrice.getD 0 }
  | .error _ => { name := "N/A", sector := "N/A", marketCap := 0, currentPrice := 0 }

/-- One daily OHLCV bar of the historical series returned by
`stock.history(period=...)`; column names follow the yfinance frame. -/
structure Bar where
  Open : ℚ
  High : ℚ
  Low : ℚ
  Close : ℚ
  Volume : ℚ
deriving DecidableEq, Repr

/-- Embedding of `get_stock_data` (source lines 48–56): a raising provider call
is caught and turned into `None`; a returned frame is passed through. -/
def get_stock_data (resp : Except String (List Bar)) : Option (List Bar) :=
  match resp with
  | .ok data => some data
  | .error _ => none

/-- Pandas `Series.max()` over the closes, written with an explicit comparison
so that concrete evaluation reduces. -/
def closeMax (xs : List ℚ) : ℚ := xs.foldl (fun a b => if a ≤ b then b else a) (xs.headD 0)

/-- Pandas `Series.min()` over the closes. -/
def closeMin (xs : List ℚ) : ℚ := xs.foldl (fun a b => if b ≤ a then b else a) (xs.headD 0)

/-- Pandas `Series.std()` variance part: sample variance with divisor `n - 1`
(`ddof=1`), over exact rationals. -/
def sampleVariance (xs : List ℚ) : ℚ :=
  let n : ℕ := xs.length
  let mean : ℚ := xs.sum / n
  (xs.map (fun x => (x - mean)^2)).sum / ((n - 1 : ℕ) : ℚ)

/-- Newton iteration for the integer square root of `n`, with structural fuel;
the guess strictly decreases until it stabilises at `⌊√n⌋`, so `n` steps of
fuel always suffice. -/
def isqrtGo (n : ℕ) : ℕ → ℕ → ℕ
  | 0, guess => guess
  | fuel + 1, guess =>
    let next := (guess + n / guess) / 2
    if next < guess then isqrtGo n fuel next else guess

/-- Integer square root `⌊√n⌋` (kernel-reducible replacement for the
well-founded `Nat.sqrt`). -/
def isqrt (n : ℕ) : ℕ := if n ≤ 1 then n else isqrtGo n n (n / 2)

/-- Round-half-even of `√w` to the nearest natural number, for `w ≥ 0`,
computed exactly: `f = ⌊√w⌋` via integer square root, then `√w` is compared
with `f + 1/2` by squaring (`4w` against `(2f+1)^2`). -/
def roundHalfEvenSqrt (w : ℚ) : ℕ :=
  let f : ℕ := isqrt (w.num.toNat * w.den) / w.den
  if 4 * w < (((2 * f + 1)^2 : ℕ) : ℚ) then f
  else if ((((2 * f + 1)^2 : ℕ) : ℚ)) < 4 * w then f + 1
  else if f % 2 = 0 then f else f + 1

/-- Model of Python `f"{x:.2f}"` applied to the square root of a non-negative
rational (the page formats `data['Close'].std()` this way): round-half-even of
`√v` to two decimal places. -/
def fmtStd2 (v : ℚ) : String :=
  let n : ℕ := roundHalfEvenSqrt (10000 * v)
  toString (n / 100) ++ "." ++ (if n % 100 < 10 then "0" else "") ++ toString (n % 100)

/-- One row of the performance table (source lines 172–184); field order and
formatting follow the Python dictionary literal (기업, 시작 가격, 현재 가격,
총 수익률, 최고가, 최저가, 변동성). -/
structure PerfRow where
  company : String
  startPrice : String
  currentPrice : String
  totalReturn : String
  highest : String
  lowest : String
  volatility : String
deriving DecidableEq, Repr

/-- Embedding of the per-company loop body of the performance table: start and
end close, percent change, max/min close and sample standard deviation, each
formatted to two decimals. -/
def perfRow (company : String) (data : List Bar) : PerfRow :=
  let closes : List ℚ := data.map Bar.Close
  let start : ℚ := closes.headD 0
  let endP : ℚ := closes.getLastD 0
  let change : ℚ := (endP - start) / start * 100
  { company := company
    startPrice := "$" ++ formatFixed2 start
    currentPrice := "$" ++ formatFixed2 endP
    totalReturn := formatFixed2 change ++ "%"
    highest := "$" ++ formatFixed2 (closeMax closes)
    lowest := "$" ++ formatFixed2 (closeMin closes)
    volatility := fmtStd2 (sampleVariance closes) }

/-- The spec's wording of the percent-change formula, kept separate from the
embedding so the two can be compared: (last close − first close) / first close
× 100. -/
def spec_percentChange (closes : List ℚ) : ℚ :=
  (closes.getLastD 0 - closes.headD 0) / closes.headD 0 * 100

/-- A bar whose only relevant column is the close, for concrete test series. -/
def closeBar (c : ℚ) : Bar := ⟨0, 0, 0, c, 0⟩

/-- The fixed Top-10 catalog (source lines 15–26), an insertion-ordered map
from display name to ticker. -/
def TOP_10_COMPANIES : List (String × String) :=
  [("Apple", "AAPL"), ("Microsoft", "MSFT"), ("Alphabet (Google)", "GOOGL"),
   ("Amazon", "AMZN"), ("NVIDIA", "NVDA"), ("Tesla", "TSLA"),
   ("Meta (Facebook)", "META"), ("Berkshire Hathaway", "BRK-B"),
   ("Taiwan Semiconductor", "TSM"), ("Visa", "V")]

/-- The fixed AI catalog (source lines 29–40). -/
def AI_COMPANIES : List (String × String) :=
  [("NVIDIA", "NVDA"), ("AMD", "AMD"), ("Palantir", "PLTR"), ("Snowflake", "SNOW"),
   ("ServiceNow", "NOW"), ("UiPath", "PATH"), ("C3.ai", "AI"),
   ("SoundHound AI", "SOUN"), ("Arm Holdings", "ARM"), ("Symbotic", "SYM")]

/-- The two selectable groups (source lines 43–46). -/
def COMPANY_GROUPS : List (String × List (String × String)) :=
  [("시총 Top 10 기업", TOP_10_COMPANIES), ("차세대 AI 주요 기업", AI_COMPANIES)]

/-- The lookback options (source line 101). -/
def period_options : List (String × String) :=
  [("1년", "1y"), ("2년", "2y"), ("3년", "3y"), ("5년", "5y")]

/-- One metric card (`st.metric`, source lines 129–133). -/
structure MetricCard where
  label : String
  value : String
  delta : String
deriving DecidableEq, Repr

/-- The price chart handed to `st.plotly_chart`: either a multi-company line
chart of closes or a single-company candlestick of the full OHLC series. -/
inductive PriceChart
  | lineChart (series : List (String × List ℚ))
  | candlestick (company : String) (bars : List Bar)
deriving DecidableEq, Repr

/-- One observable step of a render: a Streamlit output call, a provider call,
or an uncaught Python exception (which always ends the trace). -/
inductive Effect
  | title (s : String)
  | markdown (s : String)
  | warning (s : String)
  | errorBox (s : String)
  | header (s : String)
  | fetchHistory (ticker period : String)
  | fetchInfo (ticker : String)
  | metricCard (card : MetricCard)
  | caption (s : String)
  | infoBox (s : String)
  | priceChart (c : PriceChart)
  | perfTable (rows : List PerfRow)
  | volumeChart (series : List (String × List ℚ))
  | crash (s : String)
deriving DecidableEq, Repr

/-- Effects that are provider calls. -/
def Effect.isFetch : Effect → Bool
  | Effect.fetchHistory _ _ => true
  | Effect.fetchInfo _ => true
  | _ => false

/-- Effects that display a metric card, a chart or a table. -/
def Effect.isDisplay : Effect → Bool
  | Effect.metricCard _ => true
  | Effect.priceChart _ => true
  | Effect.perfTable _ => true
  | Effect.volumeChart _ => true
  | _ => false

/-- The per-company fetch loop (source lines 108–117): for each selected
company fetch history then snapshot (a raising history fetch emits `st.error`
from inside `get_stock_data`, line 55); a company is kept — with its snapshot —
only when the history fetch returned a non-empty frame.  Returns the emitted
effects and the kept `(company, data, info)` rows in selection order. -/
def fetchLoop (dict : List (String × String)) (period : String)
    (histProvider : String → String → Except String (List Bar))
    (infoProvider : String → Except String RawInfo) :
    List String → List Effect × List (String × List Bar × CompanyInfo)
  | [] => ([], [])
  | company :: rest =>
    let ticker := (dict.lookup company).getD ""
    let histResp := histProvider ticker period
    let fetchFx :=
      [Effect.fetchHistory ticker period] ++
      (match histResp with
        | .error e => [Effect.errorBox (ticker ++ " 데이터를 가져오는 중 오류 발생: " ++ e)]
        | .ok _ => []) ++
      [Effect.fetchInfo ticker]
    let entry :=
      match get_stock_data histResp with
      | some data =>
        if data = [] then [] else [(company, data, get_company_info (infoProvider ticker))]
      | none => []
    let next := fetchLoop dict period histProvider infoProvider rest
    (fetchFx ++ next.1, entry ++ next.2)

/-- The metric-card loop (source lines 125–134): it iterates over all selected
companies and subscripts `company_info[company]`, which raises `KeyError` for a
company whose history fetch failed; the boolean reports whether the loop
crashed (ending the render). -/
def cardEffects (company_info : List (String × CompanyInfo)) :
    List String → List Effect × Bool
  | [] => ([], false)
  | company :: rest =>
    match company_info.lookup company with
    | some info =>
      let next := cardEffects company_info rest
      ([Effect.metricCard ⟨company, "$" ++ formatFixed2 info.currentPrice,
          "시총: " ++ format_market_cap info.marketCap⟩,
        Effect.caption ("섹터: " ++ info.sector)] ++ next.1, next.2)
    | none => ([Effect.crash ("KeyError: " ++ company)], true)

/-- The price-chart section (source lines 136–167): header, then either the
multi-company line chart of closes, or a candlestick of the first selected
company — built from `stock_data[selected_companies[0]]`, a subscript that
raises `KeyError` when that fetch failed — preceded by an `st.info` notice
when more than one company is selected. -/
def chartEffects (chart_type : String) (selected : List String)
    (stock_data : List (String × List Bar)) : List Effect × Bool :=
  if chart_type = "라인 차트" then
    ([Effect.header "📈 주가 차트",
      Effect.priceChart (PriceChart.lineChart
        (stock_data.map (fun p => (p.1, p.2.map Bar.Close))))], false)
  else
    match stock_data.lookup (selected.headD "") with
    | some data =>
      ([Effect.header "📈 주가 차트"] ++
       (if 1 < selected.length
        then [Effect.infoBox "캔들스틱 차트는 하나의 기업만 지원됩니다."] else []) ++
       [Effect.priceChart (PriceChart.candlestick (selected.headD "") data)], false)
    | none =>
      ([Effect.header "📈 주가 차트", Effect.crash ("KeyError: " ++ selected.headD "")], true)

/-- The volume-chart section (source lines 188–201): the Python local `colors`
is assigned only in the line-chart branch (line 140), so when the candlestick
branch ran, the first iteration of the volume loop (line 193) raises
`NameError`; the loop body runs only when `stock_data` is non-empty. -/
def volumeEffects (chart_type : String) (stock_data : List (String × List Bar)) :
    List Effect × Bool :=
  if chart_type = "라인 차트" ∨ stock_data = [] then
    ([Effect.header "📊 거래량 분석",
      Effect.volumeChart (stock_data.map (fun p => (p.1, p.2.map Bar.Volume)))], false)
  else
    ([Effect.header "📊 거래량 분석",
      Effect.crash "NameError: colors is not defined"], true)

/-- The static disclaimer block (source lines 204–212), abridged to its
data-source line. -/
def disclaimerText : String := "데이터 소스: Yahoo Finance — 본 데이터는 투자 조언이 아닙니다."

/-- The body of `main` past the empty-selection guard (source lines 100–212),
with the group and period dictionary reads already resolved: the fetch loop,
the data-availability guard, the metric cards, the price chart, the
performance table, the volume chart and the disclaimer, each stage cut short
by a crash in an earlier one. -/
def renderBody (dict : List (String × String)) (period chart_type : String)
    (selected : List String)
    (histProvider : String → String → Except String (List Bar))
    (infoProvider : String → Except String RawInfo) : List Effect :=
  let fetched := fetchLoop dict period histProvider infoProvider selected
  let stock_data : List (String × List Bar) := fetched.2.map (fun r => (r.1, r.2.1))
  let company_info : List (String × CompanyInfo) := fetched.2.map (fun r => (r.1, r.2.2))
  if stock_data = [] then
    fetched.1 ++ [Effect.errorBox "데이터를 불러올 수 없습니다."]
  else
    let cards := cardEffects company_info selected
    if cards.2 then
      fetched.1 ++ [Effect.header "📊 선택된 기업 정보"] ++ cards.1
    else
      let chart := chartEffects chart_type selected stock_data
      if chart.2 then
        fetched.1 ++ [Effect.header "📊 선택된 기업 정보"] ++ cards.1 ++ chart.1
      else
        let perf := [Effect.header "📊 성과 비교",
          Effect.perfTable (stock_data.map (fun q => perfRow q.1 q.2))]
        let volume := volumeEffects chart_type stock_data
        if volume.2 then
          fetched.1 ++ [Effect.header "📊 선택된 기업 정보"] ++ cards.1 ++
            chart.1 ++ perf ++ volume.1
        else
          fetched.1 ++ [Effect.header "📊 선택된 기업 정보"] ++ cards.1 ++
            chart.1 ++ perf ++ volume.1 ++
            [Effect.header "ℹ️ 추가 정보", Effect.infoBox disclaimerText]

/-- Embedding of `main` (source lines 82–212) as the ordered effect trace of a
single render, parameterised by the sidebar control values (group, selection,
period, chart type — the UI restricts the group and period strings to catalog
keys, so the two dictionary reads at lines 88 and 113 are modelled with a
default) and by the provider outcome of each fetch. -/
def main (company_group : String) (selected_companies : List String)
    (selected_period : String) (chart_type : String)
    (histProvider : String → String → Except String (List Bar))
    (infoProvider : String → Except String RawInfo) : List Effect :=
  let intro := [Effect.title "📈 글로벌 주요 기업 주가 분석",
    Effect.markdown "시총 상위 기업과 차세대 AI 기업들의 최근 주가 흐름을 비교해보세요."]
  if selected_companies = [] then
    intro ++ [Effect.warning "최소 하나의 기업을 선택해주세요."]
  else
    intro ++ renderBody ((COMPANY_GROUPS.lookup company_group).getD [])
      ((period_options.lookup selected_period).getD "") chart_type selected_companies
      histProvider infoProvider

/-- A history fetch failed in the sense of source line 115: the provider
raised (so `get_stock_data` returned `None`) or returned an empty frame. -/
def histFetchFailed (dict : List (String × String)) (period : String)
    (histProvider : String → String → Except String (List Bar)) (company : String) : Prop :=
  get_stock_data (histProvider ((dict.lookup company).getD "") period) = none ∨
  get_stock_data (histProvider ((dict.lookup company).getD "") period) = some []

/-- A history fetch succeeded with a non-empty frame. -/
def histFetchOk (dict : List (String × String)) (period : String)
    (histProvider : String → String → Except String (List Bar)) (company : String) : Prop :=
  ∃ bars : List Bar, bars ≠ [] ∧
    histProvider ((dict.lookup company).getD "") period = Except.ok bars

/-- The frame fetched for a company, with `[]` standing in for a failure. -/
def fetchedBars (dict : List (String × String)) (period : String)
    (histProvider : String → String → Except String (List Bar)) (company : String) :
    List Bar :=
  (get_stock_data (histProvider ((dict.lookup company).getD "") period)).getD []

/-- Concrete series for witnesses. -/
def okBars : List Bar := [closeBar 100, closeBar 110]

/-- Concrete always-succeeding history provider for witnesses. -/
def okHist (_t _p : String) : Except String (List Bar) := Except.ok okBars

/-- Concrete always-succeeding snapshot provider for witnesses. -/
def okInfo (_t : String) : Except String RawInfo :=
  Except.ok ⟨some "Name", some "Tech", some (10^9), some 50⟩

/-- Concrete always-raising history provider for witnesses. -/
def failHist (_t _p : String) : Except String (List Bar) :=
  Except.error "connection reset"

/-- The three default Top-10 selections of the C1 scenario. -/
def c1Selected : List String := ["Apple", "Microsoft", "Alphabet (Google)"]

/-- History provider of the C1 scenario: exactly the Microsoft fetch raises,
the other two succeed with a non-empty series. -/
def c1Hist (t _p : String) : Except String (List Bar) :=
  if t = "MSFT" then Except.error "connection reset"
  else Except.ok [closeBar 100, closeBar 110]

/-- Snapshot provider of the C1 scenario: always succeeds fully. -/
def c1Info (_t : String) : Except String RawInfo :=
  Except.ok ⟨some "Name", some "Tech", some (2 * 10^12), some 100⟩

/-- C2: `format_market_cap` uses the largest applicable unit suffix on every
non-negative input — values at least `10^12` render as the value divided by
`10^12` to two decimals with suffix `T`, values in `[10^9, 10^12)` likewise
with `B`, values in `[10^6, 10^9)` with `M`, and smaller non-negative values as
a thousands-grouped integer — and in particular `999999999 ↦ "$1000.00M"`,
`10^12 ↦ "$1.00T"`, `2500000000 ↦ "$2.50B"` and `500 ↦ "$500"`.  As a Lean
function it is deterministic and side-effect free by construction. -/
theorem format_market_cap_unit_boundaries :
    (∀ q : ℚ, 10^12 ≤ q → format_market_cap q = "$" ++ formatFixed2 (q / 10^12) ++ "T") ∧
    (∀ q : ℚ, 10^9 ≤ q → q < 10^12 → format_market_cap q = "$" ++ formatFixed2 (q / 10^9) ++ "B") ∧
    (∀ q : ℚ, 10^6 ≤ q → q < 10^9 → format_market_cap q = "$" ++ formatFixed2 (q / 10^6) ++ "M") ∧
    (∀ q : ℚ, 0 ≤ q → q < 10^6 → format_market_cap q = "$" ++ formatComma0 q) ∧
    format_market_cap 999999999 = "$1000.00M" ∧
    format_market_cap (10^12) = "$1.00T" ∧
    format_market_cap 2500000000 = "$2.50B" ∧
    format_market_cap 500 = "$500" := by
  refine ⟨?_, ?_, ?_, ?_, by decide, by decide, by decide, by decide⟩
  · intro q h
    rw [format_market_cap, if_pos h]
  · intro q h1 h2
    rw [format_market_cap, if_neg (not_le.mpr h2), if_pos h1]
  · intro q h1 h2
    rw [format_market_cap, if_neg (not_le.mpr (lt_of_lt_of_le h2 (by norm_num))),
      if_neg (not_le.mpr h2), if_pos h1]
  · intro q _ h2
    rw [format_market_cap, if_neg (not_le.mpr (lt_of_lt_of_le h2 (by norm_num))),
      if_neg (not_le.mpr (lt_of_lt_of_le h2 (by norm_num))), if_neg (not_le.mpr h2)]

/-- C2 witness: the general branch equations applied at a concrete input in
each branch, with every hypothesis discharged concretely. -/
theorem format_market_cap_unit_boundaries_witness :
    format_market_cap (2 * 10^12) = "$" ++ formatFixed2 (2 * 10^12 / 10^12) ++ "T" ∧
    format_market_cap 2500000000 = "$" ++ formatFixed2 (2500000000 / 10^9) ++ "B" ∧
    format_market_cap 999999999 = "$" ++ formatFixed2 (999999999 / 10^6) ++ "M" ∧
    format_market_cap 500 = "$" ++ formatComma0 500 :=
  ⟨format_market_cap_unit_boundaries.1 (2 * 10^12) (by norm_num),
   format_market_cap_unit_boundaries.2.1 2500000000 (by norm_num) (by norm_num),
   format_market_cap_unit_boundaries.2.2.1 999999999 (by norm_num) (by norm_num),
   format_market_cap_unit_boundaries.2.2.2.1 500 (by norm_num) (by norm_num)⟩

/-- C9: `format_market_cap` is total over negative inputs as well — no unit
suffix branch applies to a negative value, so it always falls through to the
thousands-grouped form, and `-2500000000 ↦ "$-2,500,000,000"`. -/
theorem format_market_cap_negative :
    (∀ q : ℚ, q < 0 → format_market_cap q = "$" ++ formatComma0 q) ∧
    format_market_cap (-2500000000) = "$-2,500,000,000" := by
  refine ⟨?_, by decide⟩
  intro q h
  rw [format_market_cap, if_neg (not_le.mpr (lt_trans h (by norm_num))),
    if_neg (not_le.mpr (lt_trans h (by norm_num))),
    if_neg (not_le.mpr (lt_trans h (by norm_num)))]

/-- C9 witness: the negative-input equation applied at `-2500000000`. -/
theorem format_market_cap_negative_witness :
    format_market_cap (-2500000000) = "$" ++ formatComma0 (-2500000000) :=
  format_market_cap_negative.1 (-2500000000) (by norm_num)

/-- C3: for every non-empty series with nonzero first close, the performance
row's total-return cell is the spec's percent change — (last close − first
close) / first close × 100 — formatted to two decimals with a `%` suffix, and
concretely closes `[100, 110]` give `"10.00%"` and `[200, 180]` give
`"-10.00%"`. -/
theorem perf_percent_change :
    (∀ (company : String) (data : List Bar), data ≠ [] →
      (data.map Bar.Close).headD 0 ≠ 0 →
      (perfRow company data).totalReturn =
        formatFixed2 (spec_percentChange (data.map Bar.Close)) ++ "%") ∧
    (perfRow "X" [closeBar 100, closeBar 110]).totalReturn = "10.00%" ∧
    (perfRow "Y" [closeBar 200, closeBar 180]).totalReturn = "-10.00%" :=
  ⟨fun _ _ _ _ => rfl, by decide, by decide⟩

/-- C3 witness: the general total-return equation applied to the concrete
series `[100, 110]`, hypotheses discharged concretely. -/
theorem perf_percent_change_witness :
    (perfRow "Apple" [closeBar 100, closeBar 110]).totalReturn =
      formatFixed2 (spec_percentChange ([closeBar 100, closeBar 110].map Bar.Close)) ++ "%" :=
  perf_percent_change.1 "Apple" [closeBar 100, closeBar 110] (by decide) (by decide)

/-- C4: on the fixed close series `[10, 20, 30]` the performance summary
reports max close `30`, min close `10`, sample variance `100` (so the textbook
sample standard deviation with divisor `n − 1` is `10`, since `10^2 = 100`),
and the two-decimal volatility cell reads `"10.00"`. -/
theorem perf_fixed_series_stats :
    closeMax [10, 20, 30] = 30 ∧
    closeMin [10, 20, 30] = 10 ∧
    sampleVariance [10, 20, 30] = 100 ∧
    (10 : ℚ)^2 = sampleVariance [10, 20, 30] ∧
    (perfRow "X" [closeBar 10, closeBar 20, closeBar 30]).highest = "$30.00" ∧
    (perfRow "X" [closeBar 10, closeBar 20, closeBar 30]).lowest = "$10.00" ∧
    (perfRow "X" [closeBar 10, closeBar 20, closeBar 30]).volatility = "10.00" :=
  ⟨by decide, by decide, by decide, by decide, by decide, by decide, by decide⟩

/-- C7: whenever the snapshot fetch raises — whatever the exception — the
result is the placeholder record with name and sector `"N/A"` and zero market
cap and price; the exception is swallowed, never propagated
(`get_company_info` is total into `CompanyInfo`). -/
theorem get_company_info_failure_placeholder :
    ∀ (e : String), get_company_info (Except.error e) =
      { name := "N/A", sector := "N/A", marketCap := 0, currentPrice := 0 } :=
  fun _ => rfl

/-- C7 witness: the placeholder equation at a concrete exception. -/
theorem get_company_info_failure_placeholder_witness :
    get_company_info (Except.error "HTTPError: 404") =
      { name := "N/A", sector := "N/A", marketCap := 0, currentPrice := 0 } :=
  get_company_info_failure_placeholder "HTTPError: 404"

/-- C10: `get_company_info` always yields a record with exactly the four
fields name/sector/marketCap/currentPrice (its return type), and on a
successful provider call each individually missing field is replaced by its
own placeholder, so partial provider data yields a partially-placeholder
record. -/
theorem get_company_info_per_field_defaults :
    (∀ info : RawInfo, get_company_info (Except.ok info) =
      { name := info.longName.getD "N/A"
        sector := info.sector.getD "N/A"
        marketCap := info.marketCap.getD 0
        currentPrice := info.currentPrice.getD 0 }) ∧
    get_company_info (Except.ok ⟨some "Apple Inc.", none, none, some 123⟩) =
      { name := "Apple Inc.", sector := "N/A", marketCap := 0, currentPrice := 123 } :=
  ⟨fun _ => rfl, by decide⟩

/-- C10 witness: the per-field equation at a concrete partial raw record. -/
theorem get_company_info_per_field_defaults_witness :
    get_company_info (Except.ok ⟨none, some "Technology", some 5, none⟩) =
      { name := (none : Option String).getD "N/A"
        sector := (some "Technology").getD "N/A"
        marketCap := (some (5:ℚ)).getD 0
        currentPrice := (none : Option ℚ).getD 0 } :=
  get_company_info_per_field_defaults.1 ⟨none, some "Technology", some 5, none⟩

/-- Looking up any member of a list in its graph under `fun x => (x, f x)`
yields its image (the first occurrence wins, with the same value). -/
theorem lookup_map_self {β : Type} (f : String → β) :
    ∀ (l : List String) (c : String), c ∈ l →
      (l.map (fun x => (x, f x))).lookup c = some (f c) := by
  intro l
  induction l with
  | nil => intro c hc; cases hc
  | cons a rest ih =>
    intro c hc
    by_cases h : c = a
    · subst h
      simp [List.lookup]
    · have hc' : c ∈ rest := by
        rcases List.mem_cons.mp hc with h1 | h1
        · exact absurd h1 h
        · exact h1
      have hba : (c == a) = false := beq_eq_false_iff_ne.mpr h
      simp [List.lookup, hba, ih c hc']

/-- When every selected company's history fetch fails (raises or is empty),
the fetch loop keeps no rows. -/
theorem fetchLoop_rows_nil (dict : List (String × String)) (period : String)
    (hp : String → String → Except String (List Bar))
    (ip : String → Except String RawInfo) :
    ∀ selected : List String, (∀ c ∈ selected, histFetchFailed dict period hp c) →
      (fetchLoop dict period hp ip selected).2 = [] := by
  intro selected
  induction selected with
  | nil => intro _; rfl
  | cons c rest ih =>
    intro h
    have hc := h c (List.mem_cons_self c rest)
    have hrest := ih (fun x hx => h x (List.mem_cons_of_mem c hx))
    rcases hc with hc | hc <;> simp [fetchLoop, hc, hrest]

/-- Every effect the fetch loop emits is a provider call or an error box. -/
theorem fetchLoop_effects_kinds (dict : List (String × String)) (period : String)
    (hp : String → String → Except String (List Bar))
    (ip : String → Except String RawInfo) :
    ∀ selected : List String, ∀ e ∈ (fetchLoop dict period hp ip selected).1,
      (∃ t q, e = Effect.fetchHistory t q) ∨ (∃ t, e = Effect.fetchInfo t) ∨
      (∃ s, e = Effect.errorBox s) := by
  intro selected
  induction selected with
  | nil =>
    intro e he
    simp [fetchLoop] at he
  | cons c rest ih =>
    intro e he
    rcases hr : hp ((dict.lookup c).getD "") period with msg | bars
    · simp [fetchLoop, hr] at he
      rcases he with he | he | he | he
      · exact Or.inl ⟨_, _, he⟩
      · exact Or.inr (Or.inr ⟨_, he⟩)
      · exact Or.inr (Or.inl ⟨_, he⟩)
      · exact ih e he
    · simp [fetchLoop, hr] at he
      rcases he with he | he | he
      · exact Or.inl ⟨_, _, he⟩
      · exact Or.inr (Or.inl ⟨_, he⟩)
      · exact ih e he

/-- When every selected company's history fetch succeeds with a non-empty
frame, the fetch loop emits exactly the two provider calls per company and
keeps every company with its frame and snapshot, in selection order. -/
theorem fetchLoop_all_ok (dict : List (String × String)) (period : String)
    (hp : String → String → Except String (List Bar))
    (ip : String → Except String RawInfo) :
    ∀ selected : List String, (∀ c ∈ selected, histFetchOk dict period hp c) →
      fetchLoop dict period hp ip selected =
        (selected.flatMap (fun c => [Effect.fetchHistory ((dict.lookup c).getD "") period,
            Effect.fetchInfo ((dict.lookup c).getD "")]),
         selected.map (fun c => (c, fetchedBars dict period hp c,
            get_company_info (ip ((dict.lookup c).getD ""))))) := by
  intro selected
  induction selected with
  | nil => intro _; rfl
  | cons c rest ih =>
    intro h
    obtain ⟨bars, hbne, heq⟩ := h c (List.mem_cons_self c rest)
    have hrest := ih (fun x hx => h x (List.mem_cons_of_mem c hx))
    simp [fetchLoop, heq, hrest, get_stock_data, fetchedBars, hbne]

/-- When every selected company has a snapshot entry, the card loop emits the
card and caption of each selected company in order and does not crash. -/
theorem cardEffects_of_lookup (info : List (String × CompanyInfo))
    (f : String → CompanyInfo) :
    ∀ l : List String, (∀ c ∈ l, info.lookup c = some (f c)) →
      cardEffects info l =
        (l.flatMap (fun c => [Effect.metricCard ⟨c, "$" ++ formatFixed2 (f c).currentPrice,
            "시총: " ++ format_market_cap (f c).marketCap⟩,
          Effect.caption ("섹터: " ++ (f c).sector)]), false) := by
  intro l
  induction l with
  | nil => intro _; rfl
  | cons c rest ih =>
    intro h
    have hc := h c (List.mem_cons_self c rest)
    have hrest := ih (fun x hx => h x (List.mem_cons_of_mem c hx))
    simp [cardEffects, hc, hrest]

/-- C5: with zero companies selected, the render emits the selection warning
and halts before any provider call: the whole trace is exactly the page title,
the introductory markdown and the warning, and in particular contains no fetch
effect and no metric card, chart or table. -/
theorem no_selection_halts :
    ∀ (company_group selected_period chart_type : String)
      (histProvider : String → String → Except String (List Bar))
      (infoProvider : String → Except String RawInfo),
      main company_group [] selected_period chart_type histProvider infoProvider =
        [Effect.title "📈 글로벌 주요 기업 주가 분석",
         Effect.markdown "시총 상위 기업과 차세대 AI 기업들의 최근 주가 흐름을 비교해보세요.",
         Effect.warning "최소 하나의 기업을 선택해주세요."] ∧
      ∀ e ∈ main company_group [] selected_period chart_type histProvider infoProvider,
        e.isFetch = false ∧ e.isDisplay = false := by
  intro g p ct hp ip
  refine ⟨rfl, ?_⟩
  intro e he
  have h : main g [] p ct hp ip =
      [Effect.title "📈 글로벌 주요 기업 주가 분석",
       Effect.markdown "시총 상위 기업과 차세대 AI 기업들의 최근 주가 흐름을 비교해보세요.",
       Effect.warning "최소 하나의 기업을 선택해주세요."] := rfl
  rw [h] at he
  rcases List.mem_cons.mp he with h1 | h1
  · subst h1; exact ⟨rfl, rfl⟩
  rcases List.mem_cons.mp h1 with h2 | h2
  · subst h2; exact ⟨rfl, rfl⟩
  rcases List.mem_cons.mp h2 with h3 | h3
  · subst h3; exact ⟨rfl, rfl⟩
  · cases h3

/-- C5 witness: the zero-selection trace at concrete control values and
providers. -/
theorem no_selection_halts_witness :
    main "시총 Top 10 기업" [] "3년" "라인 차트" okHist okInfo =
      [Effect.title "📈 글로벌 주요 기업 주가 분석",
       Effect.markdown "시총 상위 기업과 차세대 AI 기업들의 최근 주가 흐름을 비교해보세요.",
       Effect.warning "최소 하나의 기업을 선택해주세요."] :=
  (no_selection_halts "시총 Top 10 기업" "3년" "라인 차트" okHist okInfo).1

/-- C6: when the history fetch fails (raises or returns an empty frame) for
every selected company, the render emits the user-facing error box as its very
last effect and halts: no metric card, chart or table effect appears anywhere
in the trace. -/
theorem all_fetches_fail_halts :
    ∀ (company_group selected_period chart_type : String)
      (histProvider : String → String → Except String (List Bar))
      (infoProvider : String → Except String RawInfo)
      (selected : List String),
      selected ≠ [] →
      (∀ c ∈ selected, histFetchFailed ((COMPANY_GROUPS.lookup company_group).getD [])
          ((period_options.lookup selected_period).getD "") histProvider c) →
      (main company_group selected selected_period chart_type histProvider
          infoProvider).getLast? = some (Effect.errorBox "데이터를 불러올 수 없습니다.") ∧
      ∀ e ∈ main company_group selected selected_period chart_type histProvider infoProvider,
        e.isDisplay = false := by
  intro g p ct hp ip selected hne hfail
  have hrows := fetchLoop_rows_nil ((COMPANY_GROUPS.lookup g).getD [])
      ((period_options.lookup p).getD "") hp ip selected hfail
  have hmain : main g selected p ct hp ip =
      ([Effect.title "📈 글로벌 주요 기업 주가 분석",
        Effect.markdown "시총 상위 기업과 차세대 AI 기업들의 최근 주가 흐름을 비교해보세요."] ++
       (fetchLoop ((COMPANY_GROUPS.lookup g).getD [])
          ((period_options.lookup p).getD "") hp ip selected).1) ++
      [Effect.errorBox "데이터를 불러올 수 없습니다."] := by
    simp [main, renderBody, if_neg hne, hrows]
  refine ⟨?_, ?_⟩
  · rw [hmain, List.getLast?_concat]
  · intro e he
    rw [hmain] at he
    rcases List.mem_append.mp he with h1 | h1
    · rcases List.mem_append.mp h1 with h2 | h2
      · rcases List.mem_cons.mp h2 with h3 | h3
        · subst h3; rfl
        · rcases List.mem_cons.mp h3 with h4 | h4
          · subst h4; rfl
          · cases h4
      · rcases fetchLoop_effects_kinds _ _ hp ip selected e h2 with
          ⟨t, q, rfl⟩ | ⟨t, rfl⟩ | ⟨s, rfl⟩ <;> rfl
    · rcases List.mem_cons.mp h1 with h3 | h3
      · subst h3; rfl
      · cases h3

/-- C6 witness: the all-fail halt at a concrete selection and an
always-raising history provider. -/
theorem all_fetches_fail_halts_witness :
    (main "시총 Top 10 기업" ["Apple"] "3년" "라인 차트" failHist okInfo).getLast? =
      some (Effect.errorBox "데이터를 불러올 수 없습니다.") :=
  (all_fetches_fail_halts "시총 Top 10 기업" "3년" "라인 차트" failHist okInfo ["Apple"]
    (by decide) (fun _ _ => Or.inl rfl)).1

/-- C1 (code bug): with the three default Top-10 companies selected and
exactly the Microsoft history fetch failing, the render does not proceed with
the other two companies — the metric-card loop iterates over all selected
companies and the subscript `company_info["Microsoft"]` raises `KeyError`, so
the trace ends in a crash right after the first card: exactly one display
effect (Apple's metric card) is emitted, and no chart or table for the two
surviving companies ever appears. -/
theorem one_fetch_failing_crashes_render :
    (main "시총 Top 10 기업" c1Selected "3년" "라인 차트" c1Hist c1Info).getLast? =
      some (Effect.crash "KeyError: Microsoft") ∧
    Effect.metricCard ⟨"Apple", "$100.00", "시총: $2.00T"⟩ ∈
      main "시총 Top 10 기업" c1Selected "3년" "라인 차트" c1Hist c1Info ∧
    (main "시총 Top 10 기업" c1Selected "3년" "라인 차트" c1Hist c1Info).countP
      (fun e => e.isDisplay) = 1 :=
  ⟨by decide, by decide, by decide⟩

/-- Under candlestick mode with every selected company's fetch succeeding
non-empty, the render body is: the provider calls, the card section, the chart
section — whose only chart is a candlestick of the first selected company,
preceded by the notice exactly when more than one company is selected — the
performance table, and the volume-section `NameError` crash. -/
theorem renderBody_candlestick_all_ok (dict : List (String × String)) (period : String)
    (hp : String → String → Except String (List Bar))
    (ip : String → Except String RawInfo) (c0 : String) (rest0 : List String) :
    (∀ c ∈ c0 :: rest0, histFetchOk dict period hp c) →
    renderBody dict period "캔들스틱 차트" (c0 :: rest0) hp ip =
      ((c0 :: rest0).flatMap (fun c =>
        [Effect.fetchHistory ((dict.lookup c).getD "") period,
         Effect.fetchInfo ((dict.lookup c).getD "")])) ++
      [Effect.header "📊 선택된 기업 정보"] ++
      ((c0 :: rest0).flatMap (fun c =>
        [Effect.metricCard ⟨c,
            "$" ++ formatFixed2 (get_company_info (ip ((dict.lookup c).getD ""))).currentPrice,
            "시총: " ++ format_market_cap (get_company_info (ip ((dict.lookup c).getD ""))).marketCap⟩,
         Effect.caption ("섹터: " ++ (get_company_info (ip ((dict.lookup c).getD ""))).sector)])) ++
      ([Effect.header "📈 주가 차트"] ++
       (if 1 < (c0 :: rest0).length
        then [Effect.infoBox "캔들스틱 차트는 하나의 기업만 지원됩니다."] else []) ++
       [Effect.priceChart (PriceChart.candlestick c0 (fetchedBars dict period hp c0))]) ++
      [Effect.header "📊 성과 비교",
       Effect.perfTable (((c0 :: rest0).map (fun c => (c, fetchedBars dict period hp c))).map
         (fun q => perfRow q.1 q.2))] ++
      [Effect.header "📊 거래량 분석", Effect.crash "NameError: colors is not defined"] := by
  intro hok
  have hloop := fetchLoop_all_ok dict period hp ip (c0 :: rest0) hok
  have hstock : ((fetchLoop dict period hp ip (c0 :: rest0)).2.map (fun r => (r.1, r.2.1)))
      = (c0 :: rest0).map (fun c => (c, fetchedBars dict period hp c)) := by
    rw [hloop]
    simp [List.map_map]
  have hinfo : ((fetchLoop dict period hp ip (c0 :: rest0)).2.map (fun r => (r.1, r.2.2)))
      = (c0 :: rest0).map (fun c => (c, get_company_info (ip ((dict.lookup c).getD "")))) := by
    rw [hloop]
    simp [List.map_map]
  have hcards := cardEffects_of_lookup
      ((c0 :: rest0).map (fun c => (c, get_company_info (ip ((dict.lookup c).getD "")))))
      (fun c => get_company_info (ip ((dict.lookup c).getD "")))
      (c0 :: rest0)
      (fun c hc => lookup_map_self _ _ c hc)
  have hlk0 := lookup_map_self (fun c => fetchedBars dict period hp c) (c0 :: rest0) c0
      (List.mem_cons_self c0 rest0)
  have hchart : chartEffects "캔들스틱 차트" (c0 :: rest0)
      ((c0 :: rest0).map (fun c => (c, fetchedBars dict period hp c))) =
      ([Effect.header "📈 주가 차트"] ++
       (if 1 < (c0 :: rest0).length
        then [Effect.infoBox "캔들스틱 차트는 하나의 기업만 지원됩니다."] else []) ++
       [Effect.priceChart (PriceChart.candlestick c0 (fetchedBars dict period hp c0))],
       false) := by
    simp only [chartEffects, if_neg (by decide : ¬("캔들스틱 차트" = "라인 차트")),
      List.headD_cons]
    rw [hlk0]
  have hvol : volumeEffects "캔들스틱 차트"
      ((c0 :: rest0).map (fun c => (c, fetchedBars dict period hp c))) =
      ([Effect.header "📊 거래량 분석",
        Effect.crash "NameError: colors is not defined"], true) := by
    simp only [volumeEffects]
    rw [if_neg]
    push_neg
    exact ⟨by decide, by simp⟩
  simp only [renderBody]
  rw [hstock, hinfo, hcards, hchart, hvol, hloop]
  simp

/-- C8: in candlestick mode, whenever every selected company's fetch succeeds
with a non-empty frame (so the render reaches the chart section), the chart
emitted is a candlestick of exactly the first selected company's OHLC frame —
any price chart in the trace is that candlestick — and the single-company
support notice appears in the trace precisely when more than one company is
selected. -/
theorem candlestick_first_company_only :
    ∀ (company_group selected_period : String)
      (histProvider : String → String → Except String (List Bar))
      (infoProvider : String → Except String RawInfo)
      (selected : List String),
      selected ≠ [] →
      (∀ c ∈ selected, histFetchOk ((COMPANY_GROUPS.lookup company_group).getD [])
          ((period_options.lookup selected_period).getD "") histProvider c) →
      (Effect.priceChart (PriceChart.candlestick (selected.headD "")
          (fetchedBars ((COMPANY_GROUPS.lookup company_group).getD [])
            ((period_options.lookup selected_period).getD "") histProvider
            (selected.headD "")))
        ∈ main company_group selected selected_period "캔들스틱 차트"
            histProvider infoProvider) ∧
      ((Effect.infoBox "캔들스틱 차트는 하나의 기업만 지원됩니다."
          ∈ main company_group selected selected_period "캔들스틱 차트"
              histProvider infoProvider)
        ↔ 1 < selected.length) ∧
      (∀ ch : PriceChart,
        Effect.priceChart ch ∈ main company_group selected selected_period "캔들스틱 차트"
            histProvider infoProvider →
        ch = PriceChart.candlestick (selected.headD "")
          (fetchedBars ((COMPANY_GROUPS.lookup company_group).getD [])
            ((period_options.lookup selected_period).getD "") histProvider
            (selected.headD ""))) := by
  intro g p hp ip selected hne hok
  obtain ⟨c0, rest0, rfl⟩ := List.exists_cons_of_ne_nil hne
  have hbody := renderBody_candlestick_all_ok ((COMPANY_GROUPS.lookup g).getD [])
      ((period_options.lookup p).getD "") hp ip c0 rest0 hok
  have hmain : main g (c0 :: rest0) p "캔들스틱 차트" hp ip =
      [Effect.title "📈 글로벌 주요 기업 주가 분석",
       Effect.markdown "시총 상위 기업과 차세대 AI 기업들의 최근 주가 흐름을 비교해보세요."] ++
      renderBody ((COMPANY_GROUPS.lookup g).getD [])
        ((period_options.lookup p).getD "") "캔들스틱 차트" (c0 :: rest0) hp ip := by
    simp [main]
  rw [List.headD_cons, hmain, hbody]
  by_cases hlen : 1 < (c0 :: rest0).length
  · refine ⟨?_, ?_, ?_⟩
    · simp [hlen]
    · simp [hlen, List.mem_flatMap]
    · intro ch hch
      simp [hlen, List.mem_flatMap] at hch
      exact hch
  · refine ⟨?_, ?_, ?_⟩
    · simp [hlen]
    · simp [hlen, List.mem_flatMap]
    · intro ch hch
      simp [hlen, List.mem_flatMap] at hch
      exact hch

/-- C8 witness: the candlestick conclusion at a concrete two-company selection
with an always-succeeding provider. -/
theorem candlestick_first_company_only_witness :
    Effect.priceChart (PriceChart.candlestick ((["Apple", "Microsoft"] : List String).headD "")
        (fetchedBars ((COMPANY_GROUPS.lookup "시총 Top 10 기업").getD [])
          ((period_options.lookup "3년").getD "") okHist
          ((["Apple", "Microsoft"] : List String).headD "")))
      ∈ main "시총 Top 10 기업" ["Apple", "Microsoft"] "3년" "캔들스틱 차트" okHist okInfo :=
  (candlestick_first_company_only "시총 Top 10 기업" "3년" okHist okInfo
    ["Apple", "Microsoft"] (by decide) (fun _ _ => ⟨okBars, by decide, rfl⟩)).1

end MyMapApp
